import Mathlib

/-!
Shallow embedding of the AutoGit Pro workflow engine (TypeScript) in Lean 4.

The sources embedded here:
  * `src/utils/git.ts` (exec-based variant): `executeGit`, `commit` with its
    shell-escaping pipeline;
  * the spawn-based variant of `git.ts`: `executeGitWithArgs`, `commit`,
    `getStatus`, `pull`;
  * `src/ui/terminal.ts` (`TerminalWorkflow`): `input`, `confirm`, `select`,
    `handleInput`;
  * `src/commands/autoCommit.ts` (`runWorkflow`) and
    `src/commands/autoPull.ts` (`runPullWorkflow`): the two workflow engines,
    embedded as pure trace-producing functions over an environment record that
    supplies the results of every external call (git subprocess results, user
    keystroke lines, configuration flags).

JavaScript-isms are modelled explicitly: `a || b` on strings is `jsOr`,
`str.includes(sub)` is `strHasSub`, out-of-bounds character access yields
`Option.none`, and `String.prototype.trim` is modelled by `strTrim`
(stripping ASCII whitespace from the two ends).
-/

namespace AutoGit

/-- JS `a || b` for strings: the empty string is falsy. -/
def jsOr (a b : String) : String := if a = "" then b else a

/-- ASCII-whitespace trim on the character list (leading and trailing). -/
def trimChars (cs : List Char) : List Char :=
  ((cs.dropWhile Char.isWhitespace).reverse.dropWhile Char.isWhitespace).reverse

/-- `String.prototype.trim`, realised over the character list so that it is
kernel-computable. -/
def strTrim (s : String) : String := String.mk (trimChars s.data)

/-- `String.prototype.toLowerCase` (ASCII), kernel-computable. -/
def strLower (s : String) : String := String.mk (s.data.map Char.toLower)

/-- Replace every occurrence of the character `pat` by the string `rep`
(the single-character-pattern case of `String.prototype.replace` with a
global regex). -/
def replaceChar (pat : Char) (rep : List Char) : List Char → List Char
  | [] => []
  | c :: rest => if c = pat then rep ++ replaceChar pat rep rest else c :: replaceChar pat rep rest

/-- String-level wrapper of `replaceChar`. -/
def strReplaceChar (s : String) (pat : Char) (rep : String) : String :=
  String.mk (replaceChar pat rep.data s.data)

/-- Replace every `\r\n` pair by `\n` (the two-character-pattern replace of
`formatGitError`), scanning left to right. -/
def replaceCRLF : List Char → List Char
  | [] => []
  | [c] => [c]
  | a :: b :: rest =>
      if a = Char.ofNat 13 ∧ b = Char.ofNat 10 then Char.ofNat 10 :: replaceCRLF rest
      else a :: replaceCRLF (b :: rest)

/-- Split a character list at every occurrence of `sep` (JS
`String.prototype.split` with a single-character separator: empty pieces are
kept). -/
def splitChar (sep : Char) : List Char → List (List Char)
  | [] => [[]]
  | c :: rest =>
      let r := splitChar sep rest
      if c = sep then [] :: r
      else
        match r with
        | [] => [[c]]
        | h :: t => (c :: h) :: t

/-- String-level wrapper of `splitChar`. -/
def strSplitChar (s : String) (sep : Char) : List String :=
  (splitChar sep s.data).map String.mk

/-- Character-list matching: `leadMatch h n` is true when `n` occurs at the
head of `h` (models the anchored part of `String.prototype.includes`). -/
def leadMatch : List Char → List Char → Bool
  | _, [] => true
  | [], _ :: _ => false
  | a :: as, b :: bs => a == b && leadMatch as bs

/-- `hasSubList h n`: `n` occurs as a contiguous infix of `h`. -/
def hasSubList : List Char → List Char → Bool
  | [], n => n.isEmpty
  | a :: as, n => leadMatch (a :: as) n || hasSubList as n

/-- Model of JS `hay.includes(needle)`. -/
def strHasSub (hay needle : String) : Bool := hasSubList hay.data needle.data

/-- `r.error?.includes(sig)` on an optional error string: `undefined` is falsy. -/
def optHasSub (o : Option String) (needle : String) : Bool :=
  match o with
  | some s => strHasSub s needle
  | none => false

/-- First-occurrence deduplication, the order-preserving behaviour of
`[...new Set(xs)]` in JS. -/
def dedupAux : List String → List String → List String
  | [], _ => []
  | x :: xs, seen => if seen.contains x then dedupAux xs seen else x :: dedupAux xs (x :: seen)

/-- `[...new Set(xs)]`. -/
def dedupFirst (xs : List String) : List String := dedupAux xs []

/-! ## Process runner (`executeGitWithArgs`, spawn-based `git.ts`) -/

/-- Outcome of the external process, as observed by the `spawn` wrapper:
either the child failed to launch (`error` event) or it exited with a code
after producing the captured stdout/stderr. -/
inductive SpawnOutcome where
  | launchFailure (msg : String)
  | exited (code : Int) (stdout stderr : String)
deriving DecidableEq

/-- Result shape `GitOperationResult` from `types.ts`:
`{ success: bool, data?: string, error?: string }`. -/
structure GitResult where
  success : Bool
  data : Option String := none
  error : Option String := none
deriving DecidableEq

/-- `executeGitWithArgs` from the spawn-based `git.ts`: on exit code 0 resolve
`{success: true, data: stdout.trim()}`; on a non-zero code resolve
`{success: false, error: stderr.trim() || "Git command failed with code N"}`;
on a launch error resolve
`{success: false, error: err.message || "Failed to execute git command"}`.
The promise is always resolved, never rejected, so the embedding is a total
function. -/
def executeGitWithArgs : SpawnOutcome → GitResult
  | .exited code out err =>
      if code = 0 then
        { success := true, data := some (strTrim out) }
      else
        { success := false
          error := some (jsOr (strTrim err) ("Git command failed with code " ++ toString code)) }
  | .launchFailure msg =>
      { success := false, error := some (jsOr msg "Failed to execute git command") }

/-! ## Commit-message escaping (exec-based `git.ts`) -/

/-- The escaping pipeline of `commit` in the exec-based `git.ts`:
backslashes doubled, then `"`, backtick and `$` backslash-escaped, then
newlines replaced by a space, then the result trimmed. -/
def escapeCommitMessage (m : String) : String :=
  strTrim (strReplaceChar (strReplaceChar (strReplaceChar (strReplaceChar (strReplaceChar
    m (Char.ofNat 92) "\\\\") (Char.ofNat 34) "\\\"") (Char.ofNat 96) "\\`")
    (Char.ofNat 36) "\\$") (Char.ofNat 10) " ")

/-- POSIX double-quote decoding: inside `"`...`"` a backslash escapes only
`\` `"` `` ` `` `$`; before any other character it stays literal. This models
what the shell hands to `git` as the `-m` argument when `executeGit` runs
`git commit -m "<escaped>"` through `exec`. -/
def shellDQDecode : List Char → List Char
  | [] => []
  | [c] => [c]
  | c :: d :: rest =>
      if c = Char.ofNat 92 ∧
          (d = Char.ofNat 92 ∨ d = Char.ofNat 34 ∨ d = Char.ofNat 96 ∨ d = Char.ofNat 36) then
        d :: shellDQDecode rest
      else
        c :: shellDQDecode (d :: rest)

/-- The commit-message text actually delivered to `git` by the exec-based
`commit`: the escaped message, as decoded by the shell from inside the double
quotes of `git commit -m "..."`. -/
def execDeliveredMessage (m : String) : String :=
  String.mk (shellDQDecode (escapeCommitMessage m).data)

/-- `commit` from the spawn-based `git.ts`: an empty/whitespace-only message
is rejected before invocation (`none`); otherwise the argv
`["commit", "-m", message.trim()]` is handed to `spawn` with `shell: false`,
which delivers it to the tool unaltered. -/
def commitSpawnArgs (m : String) : Option (List String) :=
  if strTrim m = "" then none else some ["commit", "-m", strTrim m]

/-! ## Status parsing (`getStatus`) -/

/-- `GitStatus` from `types.ts`. -/
structure GitStatus where
  staged : List String
  unstaged : List String
  untracked : List String
  hasChanges : Bool
deriving DecidableEq

/-- The per-line classification loop of `getStatus`: `line[0]` is the index
column, `line[1]` the work-tree column, `line.substring(3)` the filename.
Out-of-range access gives `none` (JS `undefined`), which compares unequal to
every character, exactly as in JS. -/
def parseStatusLines : List String → List String × List String × List String
  | [] => ([], [], [])
  | l :: rest =>
      let (s, u, t) := parseStatusLines rest
      let c0 := l.data.head?
      let c1 := l.data.get? 1
      let fname := String.mk (l.data.drop 3)
      if c0 = some (Char.ofNat 63) then
        (s, u, fname :: t)
      else
        let s2 := if c0 ≠ some (Char.ofNat 32) ∧ c0 ≠ some (Char.ofNat 63) then fname :: s else s
        let u2 := if c1 ≠ some (Char.ofNat 32) ∧ c1 ≠ some (Char.ofNat 63) then fname :: u else u
        (s2, u2, t)

/-- `getStatus` applied to the raw `git status --porcelain` output: split on
newlines, drop blank lines, classify each line, and derive `hasChanges`. -/
def getStatusData (out : String) : GitStatus :=
  let lines := (strSplitChar out (Char.ofNat 10)).filter (fun l => strTrim l != "")
  let (s, u, t) := parseStatusLines lines
  { staged := s, unstaged := u, untracked := t,
    hasChanges := decide (s.length > 0) || decide (u.length > 0) || decide (t.length > 0) }

/-! ## Terminal prompts (`TerminalWorkflow.input` / `confirm` / `select`) -/

/-- The resolver installed by `TerminalWorkflow.input`: the submitted line is
trimmed, and an empty trimmed line falls back to the default
(`resolve(value.trim() || defaultValue || "")`). -/
def inputResolve (line dflt : String) : String :=
  jsOr (strTrim line) (jsOr dflt "")

/-- `TerminalWorkflow.confirm`: prompt with the literal hint `"Y/n"` or
`"y/N"` as the default; a response equal to that hint (or empty) yields the
default, any other response is true iff its lowercase form is `y` or `yes`. -/
def confirmResolve (defaultYes : Bool) (line : String) : Bool :=
  let defaultStr := if defaultYes then "Y/n" else "y/N"
  let response := inputResolve line defaultStr
  if response = defaultStr ∨ response = "" then defaultYes
  else strLower response == "y" || strLower response == "yes"

/-- `TerminalWorkflow.select`: `index = parseInt(response) - 1`; an in-range
index picks that option, anything else (including NaN, modelled as `none`)
falls back to the default option. The numeric parse of the keystroke line is
supplied as `parsed`. -/
def selectResolve (options : List String) (defaultIndex : Nat) (parsed : Option Int) : String :=
  match parsed with
  | none => options.getD defaultIndex ""
  | some n =>
      let idx := n - 1
      if 0 ≤ idx ∧ idx < options.length then options.getD idx.toNat ""
      else options.getD defaultIndex ""

/-! ## Interactive session state (`TerminalWorkflow` fields and `handleInput`) -/

/-- The mutable state of a `TerminalWorkflow` instance that `handleInput`
touches: the line buffer `currentInput`, whether `inputResolver` is non-null
(`pending`), the values handed to the resolver so far (`resolvedValues`, the
raw `currentInput` at each Enter), and the `isRunning` flag. -/
structure TermState where
  currentInput : String
  pending : Bool
  resolvedValues : List String
  running : Bool
deriving DecidableEq

/-- The events driving the session: a prompt request
(`this.inputResolver = ...` inside `input()`), and the keystroke cases of
`handleInput` — Enter (`"\r"`), Backspace (`"\x7f"`), Ctrl-C (`"\x03"`),
a printable character (`data >= " "`), and any other control character. -/
inductive TermEvent where
  | promptReq
  | keyEnter
  | keyBackspace
  | keyCtrlC
  | keyChar (c : Char)
deriving DecidableEq

/-- One step of the session. Enter clears the resolver *before* invoking it
with the buffered line and then resets the buffer; an Enter with no pending
resolver changes nothing; Backspace drops the last buffered character; a
printable character (code ≥ 32) is appended, other control characters are
ignored; Ctrl-C tears the session down. -/
def termStep (s : TermState) : TermEvent → TermState
  | .promptReq => { s with pending := true }
  | .keyEnter =>
      if s.pending then
        { s with
          pending := false
          currentInput := ""
          resolvedValues := s.resolvedValues ++ [s.currentInput] }
      else s
  | .keyBackspace =>
      if s.currentInput.isEmpty then s
      else { s with currentInput := String.mk s.currentInput.data.dropLast }
  | .keyCtrlC => { s with running := false }
  | .keyChar c =>
      if Char.ofNat 32 ≤ c then { s with currentInput := s.currentInput ++ String.mk [c] } else s

/-- Run the session from a state through a list of events. -/
def termRun (s : TermState) (evs : List TermEvent) : TermState :=
  evs.foldl termStep s

/-- The state of a freshly created terminal: empty buffer, no resolver. -/
def termInit : TermState :=
  { currentInput := "", pending := false, resolvedValues := [], running := true }

/-! ## Workflow traces

Both workflow engines are embedded as pure functions from an environment
record — supplying the result of every external call and every user keystroke
line — to the sequence of observable actions: git operations, prompts, and
terminal output. Loops that print a list line by line are recorded as a
single `outBlock`/`uiMenu` action carrying the list; the cosmetic per-line
`hint:`/`error:`/`fatal:` marker rewriting is not modelled. -/

inductive Act where
  | opCheckGit | opDetect | opInit
  | opGetBranch | opGetStatus | opListBranches | opGetRemotes | opFetch
  | opGetDiffContext | opGenerateAI | opAnalyzeError
  | opHasRemote
  | opAddRemote (name url : String)
  | opStageAll
  | opCommit (msg : String)
  | opCreateBranch (b : String)
  | opCheckout (b : String)
  | opHasUpstream
  | opPush (remote branch : String) (setUpstream : Bool)
  | opPull (remote branch : String) (rebase allowUnrelated : Bool)
  | opTrackCommit | opTrackPush | opTrackPull | opTrackAi | opScm
  | uiInput (label : String)
  | uiConfirm (label : String)
  | uiMenu (options : List String)
  | outProgress (s : String)
  | outSuccess (s : String)
  | outError (s : String)
  | outInfo (s : String)
  | outLine (s : String)
  | outBlock (ls : List String)
  | outSep
  | closeSoon | closeNow
deriving DecidableEq

/-- Session variables of `runWorkflow` (commit workflow). -/
structure WfState where
  repoPath : String := ""
  currentBranch : String := ""
  targetBranch : String := ""
  needsBranchSwitch : Bool := false
  createNewBranch : Bool := false
  commitMessage : String := ""
  pushBranch : String := ""
deriving DecidableEq

/-- Initial session state of a commit-workflow run. -/
def wfInit : WfState := {}

/-- Sequencing with early exit: a stage that returns `none` (a `return` in
the TypeScript) stops the run; otherwise the next stage is fed the state and
its actions are appended. -/
def andThen {σ σ' : Type} (r : List Act × Option σ) (f : σ → List Act × Option σ') :
    List Act × Option σ' :=
  match r with
  | (t, none) => (t, none)
  | (t, some s) =>
      let r2 := f s
      (t ++ r2.1, r2.2)

/-- Environment of one `runWorkflow` run: configuration, the result of every
git call, the AI results, and the raw line submitted at every prompt. -/
structure CommitEnv where
  quickMode : Bool := false
  gitInstalled : Bool := true
  repoDetected : Option String := some "/repo"
  workspacePath : Option String := none
  repoUrlLine : String := ""
  initResult : GitResult := { success := true }
  addRemoteInitResult : GitResult := { success := true }
  branchResult : GitResult := { success := true, data := some "main" }
  statusOk : Bool := true
  statusError : Option String := none
  status : GitStatus := { staged := [], unstaged := [], untracked := ["f"], hasChanges := true }
  branchLine : String := ""
  branchesOk : Bool := true
  branches : List String := ["main"]
  commitStyle : String := "basic"
  aiValid : Bool := false
  diffCtxOk : Bool := true
  aiMessage : Option String := none
  aiError : String := ""
  messageLine : String := ""
  defaultRemote : String := "origin"
  hasRemote1 : Bool := true
  remoteUrlLine : String := ""
  addRemoteResult : GitResult := { success := true }
  confirmLine : String := ""
  autoStageAll : Bool := true
  stageResult : GitResult := { success := true }
  commitResult : GitResult := { success := true }
  createBranchResult : GitResult := { success := true }
  checkoutResult : GitResult := { success := true }
  pushAfterCommit : Bool := true
  hasRemote2 : Bool := true
  upstreamSet : Bool := true
  push1 : GitResult := { success := true }
  pullPlain : GitResult := { success := true }
  pullAllow : GitResult := { success := true }
  push2 : GitResult := { success := true }
  analysisOk : Bool := false
  analysisExpl : String := ""
  analysisSuggestions : List String := []
  timeSaved : String := ""
deriving DecidableEq

/-- Step 1: `isGitInstalled` preflight (plus the quick-mode banner). -/
def stCheckGit (env : CommitEnv) (s : WfState) : List Act × Option WfState :=
  let quickActs :=
    if env.quickMode then
      [Act.outInfo "Quick Mode: Using AI message, current branch, no confirmations"]
    else []
  if env.gitInstalled then
    (quickActs ++ [.outProgress "Checking Git installation", .opCheckGit,
      .outSuccess "Git is available"], some s)
  else
    (quickActs ++ [.outProgress "Checking Git installation", .opCheckGit,
      .outError "Git is not installed or not in PATH",
      .outInfo "Please install Git and try again."], none)

/-- Step 2: repository detection, or interactive initialization of a new
repository (collect URL, `git init -b main`, `git remote add origin`). -/
def stRepo (env : CommitEnv) (s : WfState) : List Act × Option WfState :=
  match env.repoDetected with
  | some p =>
      ([.outProgress "Detecting repository", .opDetect, .outSuccess ("Repository: " ++ p)],
        some { s with repoPath := p })
  | none =>
      match env.workspacePath with
      | none =>
          ([.outProgress "Detecting repository", .opDetect,
            .outError "No folder open. Please open a folder first."], none)
      | some w =>
          let url := inputResolve env.repoUrlLine ""
          let base := [Act.outProgress "Detecting repository", .opDetect,
            .outInfo "No Git repository found in this folder.", .outLine "",
            .uiInput "GitHub repo URL (or press Enter to skip)"]
          if url = "" then
            (base ++ [.outError "No repository URL provided. Exiting."], none)
          else if !env.initResult.success then
            (base ++ [.outProgress "Initializing Git repository", .opInit,
              .outError (jsOr (env.initResult.error.getD "") "Failed to initialize repository")],
              none)
          else if !env.addRemoteInitResult.success then
            (base ++ [.outProgress "Initializing Git repository", .opInit,
              .outSuccess "Git repository initialized",
              .outProgress "Adding remote origin", .opAddRemote "origin" url,
              .outError (jsOr (env.addRemoteInitResult.error.getD "") "Failed to add remote")],
              none)
          else
            (base ++ [.outProgress "Initializing Git repository", .opInit,
              .outSuccess "Git repository initialized",
              .outProgress "Adding remote origin", .opAddRemote "origin" url,
              .outSuccess ("Remote added: " ++ url),
              .outSuccess ("Repository: " ++ w)], some { s with repoPath := w })

/-- `let currentBranch = branchResult.data || "main"` with the new-repo
fallback (`!success || currentBranch === "HEAD"` forces `main`). -/
def effBranch (env : CommitEnv) : String :=
  let c := jsOr (env.branchResult.data.getD "") "main"
  if !env.branchResult.success || c = "HEAD" then "main" else c

/-- Whether the new-repository branch fallback fires. -/
def branchIsNew (env : CommitEnv) : Bool :=
  !env.branchResult.success || jsOr (env.branchResult.data.getD "") "main" = "HEAD"

/-- Steps 3-4: current branch and the status gate (no changes → no-op exit). -/
def stBranchStatus (env : CommitEnv) (s : WfState) : List Act × Option WfState :=
  let cur := effBranch env
  let bMsg := if branchIsNew env then Act.outInfo "New repository - will use branch: main"
    else Act.outInfo ("Current branch: " ++ cur)
  let base := [Act.opGetBranch, bMsg, Act.opGetStatus]
  if !env.statusOk then
    (base ++ [.outError (jsOr (env.statusError.getD "") "Failed to get repository status")], none)
  else if !env.status.hasChanges then
    (base ++ [.outInfo "No changes to commit. Working tree clean.", .closeSoon], none)
  else
    (base ++ [.outInfo ("Changes: " ++ toString env.status.staged.length ++ " staged, "
        ++ toString env.status.unstaged.length ++ " modified, "
        ++ toString env.status.untracked.length ++ " new"), .outSep],
      some { s with currentBranch := cur })

/-- Step 5: target-branch selection. The decision is only *recorded*
(`needsBranchSwitch`, `createNewBranch`); no checkout happens here. Skipped
entirely in quick mode. -/
def stBranchSelect (env : CommitEnv) (s : WfState) : List Act × Option WfState :=
  if env.quickMode then
    ([], some { s with
      targetBranch := s.currentBranch
      needsBranchSwitch := false
      createNewBranch := false })
  else
    let target := inputResolve env.branchLine s.currentBranch
    if target = s.currentBranch then
      ([.outLine "", .uiInput "Push to branch"],
        some { s with
          targetBranch := target
          needsBranchSwitch := false
          createNewBranch := false })
    else
      let branches := if env.branchesOk then env.branches else []
      let createNew := !(branches.contains target)
      ([.outLine "", .uiInput "Push to branch", .opListBranches,
        if createNew then .outInfo ("Will create new branch: " ++ target)
        else .outInfo ("Will switch to existing branch: " ++ target)],
        some { s with
          targetBranch := target
          needsBranchSwitch := true
          createNewBranch := createNew })

/-- Steps 6-7: AI message generation (best effort) and the interactive
message prompt (skipped in quick mode when the AI produced a message). -/
def stMessage (env : CommitEnv) (s : WfState) : List Act × Option WfState :=
  let genActs := [Act.outSep,
    .outProgress ("Generating AI commit message (" ++ env.commitStyle ++ " style)"),
    .opGetDiffContext]
  let aiPart : List Act × String :=
    if env.aiValid then
      if env.diffCtxOk then
        match env.aiMessage with
        | some m =>
            if m != "" then
              (genActs ++ [.opGenerateAI, .outSuccess "AI generated commit message:",
                .outBlock (strSplitChar m (Char.ofNat 10)), .outLine "", .opTrackAi], m)
            else
              (genActs ++ [.opGenerateAI, .outError ("AI generation failed: " ++ env.aiError)], "")
        | none =>
            (genActs ++ [.opGenerateAI, .outError ("AI generation failed: " ++ env.aiError)], "")
      else (genActs, "")
    else ([Act.outSep], "")
  let aiActs := aiPart.1
  let aiMsg := aiPart.2
  let needPrompt := !env.quickMode || aiMsg = ""
  let msg := if needPrompt then inputResolve env.messageLine (jsOr aiMsg "Update files") else aiMsg
  let promptActs := if needPrompt then [Act.uiInput "Commit message"] else []
  if msg = "" then
    (aiActs ++ promptActs ++ [.outError "Commit message cannot be empty"], none)
  else
    (aiActs ++ promptActs, some { s with commitMessage := msg })

/-- Step 8: remote gate — offer to add a remote; a failure to add it is
reported but does not stop the workflow. -/
def stRemote (env : CommitEnv) (s : WfState) : List Act × Option WfState :=
  let base := [Act.outSep, .opHasRemote]
  if env.hasRemote1 then (base, some s)
  else
    let url := inputResolve env.remoteUrlLine ""
    let base2 := base ++ [Act.outInfo "No remote repository configured",
      .uiInput "Remote URL (leave empty to skip push)"]
    if url = "" then (base2, some s)
    else if env.addRemoteResult.success then
      (base2 ++ [.outProgress ("Adding remote: " ++ env.defaultRemote),
        .opAddRemote env.defaultRemote url, .outSuccess ("Remote added: " ++ url)], some s)
    else
      (base2 ++ [.outProgress ("Adding remote: " ++ env.defaultRemote),
        .opAddRemote env.defaultRemote url,
        .outError (jsOr (env.addRemoteResult.error.getD "") "Failed to add remote")], some s)

/-- Step 9: summary and final confirmation (skipped in quick mode). -/
def stConfirm (env : CommitEnv) (s : WfState) : List Act × Option WfState :=
  let hdr := [Act.outSep, .outLine "", .outInfo ("Current branch: " ++ s.currentBranch)]
    ++ (if s.needsBranchSwitch then
          [Act.outInfo ("Target branch: " ++ s.targetBranch
            ++ (if s.createNewBranch then " (new)" else ""))]
        else [])
    ++ [Act.outInfo ("Message: " ++ s.commitMessage), .outLine ""]
  if env.quickMode then (hdr ++ [.outSep], some s)
  else if confirmResolve true env.confirmLine then
    (hdr ++ [.uiConfirm "Proceed with commit and push", .outSep], some s)
  else
    (hdr ++ [.uiConfirm "Proceed with commit and push", .outInfo "Cancelled by user.",
      .closeSoon], none)

/-- Step 10: stage everything when auto-stage is enabled. -/
def stStage (env : CommitEnv) (s : WfState) : List Act × Option WfState :=
  if !env.autoStageAll then ([], some s)
  else if env.stageResult.success then
    ([.outProgress "Staging all changes", .opStageAll, .outSuccess "Changes staged"], some s)
  else
    ([.outProgress "Staging all changes", .opStageAll,
      .outError (jsOr (env.stageResult.error.getD "") "Failed to stage changes")], none)

/-- Step 11: the commit itself; a failure is fatal. -/
def stCommit (env : CommitEnv) (s : WfState) : List Act × Option WfState :=
  if env.commitResult.success then
    (Act.outProgress "Creating commit" :: Act.opCommit s.commitMessage ::
      [.outSuccess "Commit created", .opTrackCommit], some s)
  else
    (Act.outProgress "Creating commit" :: Act.opCommit s.commitMessage ::
      [.outError (jsOr (env.commitResult.error.getD "") "Failed to commit")], none)

/-- Step 12: the deferred branch switch — only runs now that the commit is
recorded; on failure the user is told the commit exists on the original
branch and the run stops (the commit is left in place). -/
def stSwitch (env : CommitEnv) (s : WfState) : List Act × Option WfState :=
  if !s.needsBranchSwitch then ([], some { s with pushBranch := s.currentBranch })
  else if s.createNewBranch then
    if env.createBranchResult.success then
      ([.outProgress ("Creating new branch: " ++ s.targetBranch), .opCreateBranch s.targetBranch,
        .outSuccess ("Created and switched to " ++ s.targetBranch)],
        some { s with pushBranch := s.targetBranch })
    else
      ([.outProgress ("Creating new branch: " ++ s.targetBranch), .opCreateBranch s.targetBranch,
        .outError (jsOr (env.createBranchResult.error.getD "") "Failed to create branch"),
        .outInfo "Commit was created on current branch. You can switch manually."], none)
  else
    if env.checkoutResult.success then
      ([.outProgress ("Switching to branch: " ++ s.targetBranch), .opCheckout s.targetBranch,
        .outSuccess ("Switched to " ++ s.targetBranch)],
        some { s with pushBranch := s.targetBranch })
    else
      ([.outProgress ("Switching to branch: " ++ s.targetBranch), .opCheckout s.targetBranch,
        .outError (jsOr (env.checkoutResult.error.getD "") "Failed to switch branch"),
        .outInfo "Commit was created on current branch. You can switch manually."], none)

/-- The conflict test of the commit workflow's pull-failure handler. -/
def conflictSignature (errorText : String) : Bool :=
  strHasSub (strLower errorText) "conflict" || strHasSub (strLower errorText) "could not apply"
    || strHasSub (strLower errorText) "merge" || strHasSub (strLower errorText) "rebase"

/-- The AI-analysis output block shared by the failure handlers. -/
def aiBlock (expl : String) (suggestions : List String) (hdr : String)
    (trailingBlank : Bool) : List Act :=
  [Act.outInfo "AI Analysis:", .outLine "", .outLine ("   " ++ expl), .outLine ""]
    ++ (if suggestions.length > 0 then
          [Act.outInfo hdr, .outLine "", .outBlock suggestions]
            ++ (if trailingBlank then [Act.outLine ""] else [])
        else [])

/-- The raw-error lines shown by the commit workflow's non-conflict handler:
split on line breaks, blank lines dropped, first 8 lines. -/
def errReportLines (errorText : String) : List String :=
  (((strSplitChar (strReplaceChar errorText (Char.ofNat 13) "\n") (Char.ofNat 10)).map
    strTrim).filter (fun l => l != "")).take 8

/-- The result the commit workflow's recovery pull ends with: the plain
rebase-pull, or — when that failed with the unrelated-histories signature —
the allow-unrelated-histories retry. -/
def recoveryPullResult (env : CommitEnv) : GitResult :=
  if !env.pullPlain.success && optHasSub env.pullPlain.error "unrelated histories" then
    env.pullAllow
  else env.pullPlain

/-- Step 13: the push, with the single designed recovery cycle — on a
`rejected` push, one rebase-pull (retried once with
`--allow-unrelated-histories` on that signature), then one retry push. -/
def stPush (env : CommitEnv) (s : WfState) : List Act × Option WfState :=
  if !env.pushAfterCommit then ([], some s)
  else if !env.hasRemote2 then ([.opHasRemote], some s)
  else
    let base := [Act.opHasRemote,
      .outProgress ("Pushing to " ++ env.defaultRemote ++ "/" ++ s.pushBranch),
      .opHasUpstream, .opPush env.defaultRemote s.pushBranch (!env.upstreamSet)]
    if env.push1.success then
      (base ++ [.outSuccess ("Pushed to " ++ env.defaultRemote ++ "/" ++ s.pushBranch),
        .opTrackPush], some s)
    else if !(optHasSub env.push1.error "rejected") then
      (base ++ [.outError (jsOr (env.push1.error.getD "") "Failed to push")], none)
    else
      let pullActs1 := [Act.outInfo "Remote has new changes. Pulling first...",
        .outProgress "Pulling from remote", .opPull env.defaultRemote s.pushBranch true false]
      let pullActs :=
        if !env.pullPlain.success && optHasSub env.pullPlain.error "unrelated histories" then
          pullActs1 ++ [Act.outInfo "Detected unrelated histories. Merging...",
            .opPull env.defaultRemote s.pushBranch false true]
        else pullActs1
      let pullRes := recoveryPullResult env
      if !pullRes.success then
        let errorText := pullRes.error.getD ""
        let analysisActs := [Act.outLine "", .outProgress "Analyzing error with AI",
          .opAnalyzeError]
        if conflictSignature errorText then
          (base ++ pullActs ++ analysisActs
            ++ [Act.outLine "", .outError "Conflict Detected", .outSep]
            ++ (if env.analysisOk then
                  aiBlock env.analysisExpl env.analysisSuggestions "How to Fix:" false
                else
                  [Act.outInfo "Your changes conflict with remote changes.", .outLine "",
                    .outInfo "To resolve:",
                    .outLine "   1. Open Source Control to see conflicting files",
                    .outLine "   2. Resolve conflicts (look for <<<<<<< markers)",
                    .outLine "   3. Stage resolved files",
                    .outLine "   4. Run: git rebase --continue (or git rebase --abort)"])
            ++ [Act.outSep, .outInfo "Opening Source Control panel...", .opScm, .outLine "",
              .outInfo "Terminal will remain open for reference."], none)
        else
          (base ++ pullActs ++ analysisActs
            ++ [Act.outLine "", .outError "Pull failed", .outSep]
            ++ (if env.analysisOk then
                  aiBlock env.analysisExpl env.analysisSuggestions "How to Fix:" false
                else
                  [Act.outInfo "Please resolve the issue manually.", .outLine "",
                    .outBlock (errReportLines errorText)])
            ++ [Act.outSep, .outInfo "Terminal will remain open for reference."], none)
      else
        let retryActs := [Act.outSuccess "Pulled successfully",
          .outProgress ("Pushing to " ++ env.defaultRemote ++ "/" ++ s.pushBranch),
          .opPush env.defaultRemote s.pushBranch false]
        if env.push2.success then
          (base ++ pullActs ++ retryActs
            ++ [.outSuccess ("Pushed to " ++ env.defaultRemote ++ "/" ++ s.pushBranch),
              .opTrackPush], some s)
        else
          (base ++ pullActs ++ retryActs
            ++ [.outError (jsOr (env.push2.error.getD "") "Failed to push")], none)

/-- Completion: success notice, closing after a visible delay. -/
def stDone (env : CommitEnv) (s : WfState) : List Act × Option WfState :=
  ([.outSep, .outLine "", .outSuccess "All done! Commit and push completed successfully.",
    .outInfo ("Total time saved with AutoGit Pro: " ++ env.timeSaved), .outLine "",
    .outInfo "Terminal will close in 3 seconds...", .closeNow], some s)

/-- The stages preceding the commit (steps 1-10), in source order. -/
def wfPre (env : CommitEnv) : List Act × Option WfState :=
  andThen (andThen (andThen (andThen (andThen (andThen (andThen
    (stCheckGit env wfInit) (stRepo env)) (stBranchStatus env)) (stBranchSelect env))
    (stMessage env)) (stRemote env)) (stConfirm env)) (stStage env)

/-- The stages from the commit onwards (steps 11-13 and completion). -/
def wfTail (env : CommitEnv) (s : WfState) : List Act × Option WfState :=
  andThen (andThen (andThen (stCommit env s) (stSwitch env)) (stPush env)) (stDone env)

/-- `runWorkflow` (commit workflow): all stages in source order. -/
def runWorkflow (env : CommitEnv) : List Act × Option WfState :=
  andThen (wfPre env) (wfTail env)

/-- The observable action sequence of one commit-workflow run. -/
def commitTrace (env : CommitEnv) : List Act := (runWorkflow env).1

/-! ## Pull workflow (`runPullWorkflow`, `autoPull.ts`) -/

/-- `formatGitError`: normalise line endings, split, trim, drop blanks. -/
def formatGitError (raw : String) : List String :=
  ((strSplitChar (strReplaceChar (String.mk (replaceCRLF raw.data)) (Char.ofNat 13) "\n")
    (Char.ofNat 10)).map strTrim).filter (fun l => l != "")

/-- The conflict kinds of `detectConflictType`. -/
inductive ConflictType where
  | merge | rebase | pullKind
deriving DecidableEq

/-- `detectConflictType`: classify the pull error text by substring tests on
its lowercase form. -/
def detectConflictType (err : String) : Option ConflictType :=
  let l := strLower err
  if strHasSub l "rebase" && (strHasSub l "conflict" || strHasSub l "could not apply") then
    some .rebase
  else if strHasSub l "merge" && strHasSub l "conflict" then some .merge
  else if strHasSub l "conflict" || strHasSub l "would be overwritten" then some .pullKind
  else none

/-- `getConflictInstructions`: the static instructional script per kind. -/
def getConflictInstructions : ConflictType → List String
  | .rebase =>
      ["A rebase conflict occurred. Your changes conflict with remote commits.", "",
        "To resolve:",
        "  1. Open Source Control to see conflicting files",
        "  2. Edit files to resolve conflicts (look for <<<<<<< markers)",
        "  3. Stage resolved files with: git add <file>",
        "  4. Continue rebase with: git rebase --continue", "",
        "Or to abort: git rebase --abort"]
  | .merge =>
      ["A merge conflict occurred. Your changes conflict with remote commits.", "",
        "To resolve:",
        "  1. Open Source Control to see conflicting files",
        "  2. Edit files to resolve conflicts (look for <<<<<<< markers)",
        "  3. Stage resolved files",
        "  4. Complete the merge by committing"]
  | .pullKind =>
      ["Your local changes conflict with remote changes.", "",
        "To resolve:",
        "  1. Commit or stash your local changes first",
        "  2. Then try pulling again"]

/-- Session variables of `runPullWorkflow`. -/
structure PullState where
  repoPath : String := ""
  currentBranch : String := ""
  selectedRemote : String := ""
  pullBranch : String := ""
deriving DecidableEq

/-- Initial session state of a pull-workflow run. -/
def pullInit : PullState := {}

/-- Environment of one `runPullWorkflow` run. -/
structure PullEnv where
  gitInstalled : Bool := true
  repoDetected : Option String := some "/repo"
  statusOk : Bool := true
  status : GitStatus := { staged := [], unstaged := [], untracked := [], hasChanges := false }
  branchData : Option String := some "main"
  remotesOk : Bool := true
  remoteNames : List String := ["origin"]
  defaultRemote : String := "origin"
  selectParsed : Option Int := none
  fetchResult : GitResult := { success := true }
  pullBranchLine : String := ""
  confirmLine : String := ""
  pullPlain : GitResult := { success := true }
  pullAllow : GitResult := { success := true }
  analysisOk : Bool := false
  analysisExpl : String := ""
  analysisSuggestions : List String := []
  upstreamSet : Bool := true
  pushRes : GitResult := { success := true }
  timeSaved : String := ""
deriving DecidableEq

/-- Step 1: `isGitInstalled` preflight. -/
def pStCheck (env : PullEnv) (s : PullState) : List Act × Option PullState :=
  if env.gitInstalled then
    ([.outProgress "Checking Git installation", .opCheckGit, .outSuccess "Git is available"],
      some s)
  else
    ([.outProgress "Checking Git installation", .opCheckGit,
      .outError "Git is not installed or not in PATH",
      .outInfo "Please install Git and try again."], none)

/-- Step 2: repository detection. -/
def pStRepo (env : PullEnv) (s : PullState) : List Act × Option PullState :=
  match env.repoDetected with
  | some p =>
      ([.outProgress "Detecting repository", .opDetect, .outSuccess ("Repository: " ++ p)],
        some { s with repoPath := p })
  | none =>
      ([.outProgress "Detecting repository", .opDetect,
        .outError "No Git repository found. Please open a folder with a Git repository."], none)

/-- Step 3: the clean-working-tree gate — a *successful* status query that
reports changes refuses the pull; anything else proceeds. -/
def pStGate (env : PullEnv) (s : PullState) : List Act × Option PullState :=
  let base := [Act.outProgress "Checking working directory status", .opGetStatus]
  if env.statusOk && env.status.hasChanges then
    (base ++ [.outError "You have uncommitted changes.",
      .outInfo "Please commit or stash your changes before pulling.",
      .outInfo ("Staged: " ++ toString env.status.staged.length),
      .outInfo ("Modified: " ++ toString env.status.unstaged.length),
      .outInfo ("Untracked: " ++ toString env.status.untracked.length)], none)
  else
    (base ++ [.outSuccess "Working directory is clean"], some s)

/-- Step 4: current branch (`branchResult.data || "main"`). -/
def pStBranch (env : PullEnv) (s : PullState) : List Act × Option PullState :=
  let cur := jsOr (env.branchData.getD "") "main"
  ([.opGetBranch, .outInfo ("Current branch: " ++ cur)], some { s with currentBranch := cur })

/-- Step 5: list remotes; none configured is fatal. -/
def pStRemotes (env : PullEnv) (s : PullState) : List Act × Option PullState :=
  let base := [Act.outProgress "Fetching remotes", .opGetRemotes]
  if !env.remotesOk || env.remoteNames.isEmpty then
    (base ++ [.outError "No remote repositories configured.",
      .outInfo "Add a remote with: git remote add origin <url>"], none)
  else
    let names := dedupFirst env.remoteNames
    (base ++ [.outSuccess ("Found " ++ toString names.length ++ " remote(s): "
      ++ String.intercalate ", " names)], some s)

/-- Step 6: remote selection — a single remote is auto-selected; several
remotes prompt a numbered choice defaulting to the configured remote when
present in the list. -/
def pStSelect (env : PullEnv) (s : PullState) : List Act × Option PullState :=
  let names := dedupFirst env.remoteNames
  if names.length > 1 then
    let defIdx := match names.findIdx? (· == env.defaultRemote) with
      | some i => i
      | none => 0
    let sel := selectResolve names defIdx env.selectParsed
    ([.outSep, .outLine "", .outLine "Select remote to pull from", .uiMenu names,
      .uiInput "Enter number", .outInfo ("Using remote: " ++ sel)],
      some { s with selectedRemote := sel })
  else
    let sel := names.getD 0 ""
    ([.outInfo ("Using remote: " ++ sel)], some { s with selectedRemote := sel })

/-- Step 7: fetch; failure is fatal. -/
def pStFetch (env : PullEnv) (s : PullState) : List Act × Option PullState :=
  let base := [Act.outSep, .outProgress ("Fetching from " ++ s.selectedRemote), .opFetch]
  if env.fetchResult.success then (base ++ [.outSuccess "Fetch complete"], some s)
  else
    (base ++ [.outError (jsOr (env.fetchResult.error.getD "") "Failed to fetch from remote")],
      none)

/-- Step 8: branch-to-pull prompt (default = current branch). -/
def pStBranchInput (env : PullEnv) (s : PullState) : List Act × Option PullState :=
  let b := inputResolve env.pullBranchLine s.currentBranch
  ([.outLine "", .uiInput "Pull branch"], some { s with pullBranch := b })

/-- Step 9: confirmation. -/
def pStConfirm (env : PullEnv) (s : PullState) : List Act × Option PullState :=
  let base := [Act.outSep, .outInfo ("Will pull from: " ++ s.selectedRemote ++ "/" ++ s.pullBranch),
    .outInfo ("Into local branch: " ++ s.currentBranch), .outLine "",
    .uiConfirm "Proceed with pull"]
  if confirmResolve true env.confirmLine then (base, some s)
  else (base ++ [.outInfo "Cancelled by user.", .closeSoon], none)

/-- The result the pull workflow's pull step ends with: the plain pull, or —
when that failed with the unrelated-histories signature — the
allow-unrelated-histories retry. -/
def pullAttemptResult (env : PullEnv) : GitResult :=
  if !env.pullPlain.success && optHasSub env.pullPlain.error "unrelated histories" then
    env.pullAllow
  else env.pullPlain

/-- Step 10: the pull — plain first, one retry with
`--allow-unrelated-histories` on that signature only, then conflict
classification (AI explanation superseding the static script) on failure,
and the pulled summary on success. -/
def pStPull (env : PullEnv) (s : PullState) : List Act × Option PullState :=
  let base := [Act.outSep, .outProgress "Pulling from remote",
    .opPull s.selectedRemote s.pullBranch false false]
  let acts1 :=
    if !env.pullPlain.success && optHasSub env.pullPlain.error "unrelated histories" then
      base ++ [Act.outInfo "Detected unrelated histories. Attempting merge...",
        .opPull s.selectedRemote s.pullBranch false true]
    else base
  let res := pullAttemptResult env
  if !res.success then
    let errorText := res.error.getD ""
    let analysisActs := [Act.outLine "", .outProgress "Analyzing error with AI", .opAnalyzeError]
    match detectConflictType errorText with
    | some ct =>
        (acts1 ++ analysisActs ++ [Act.outLine "", .outError "Conflict Detected", .outSep]
          ++ (if env.analysisOk then
                aiBlock env.analysisExpl env.analysisSuggestions "Suggested Steps:" true
              else [Act.outBlock (getConflictInstructions ct)])
          ++ [Act.outSep, .outInfo "Opening Source Control panel...", .opScm, .outLine "",
            .outInfo "Terminal will remain open for reference."], none)
    | none =>
        (acts1 ++ analysisActs ++ [Act.outLine "", .outError "Pull failed", .outSep]
          ++ (if env.analysisOk then
                aiBlock env.analysisExpl env.analysisSuggestions "How to Fix:" false
              else
                let ls := formatGitError errorText
                if ls.length > 0 then
                  [Act.outInfo "Git said:", .outLine "", .outBlock (ls.take 10)]
                    ++ (if ls.length > 10 then
                          [Act.outLine ("   ... and " ++ toString (ls.length - 10)
                            ++ " more lines")]
                        else [])
                else [Act.outInfo "Unknown error occurred during pull."])
          ++ [Act.outSep, .outInfo "Terminal will remain open for reference."], none)
  else
    (acts1 ++ [Act.outSuccess "Pull completed successfully!", .opTrackPull]
      ++ (match res.data with
          | some d =>
              if d != "" then
                [Act.outLine "", .outInfo "Summary:",
                  .outBlock (((strSplitChar d (Char.ofNat 10)).take 5).filter
                    (fun l => strTrim l != ""))]
              else []
          | none => []), some s)

/-- Step 11: push back any local commits; "Everything up-to-date" counts as
success. -/
def pStPushBack (env : PullEnv) (s : PullState) : List Act × Option PullState :=
  let base := [Act.outSep, .outProgress "Checking for local commits to push", .opHasUpstream,
    .opPush s.selectedRemote s.currentBranch (!env.upstreamSet)]
  if env.pushRes.success then
    (base ++ [.outSuccess ("Pushed local commits to " ++ s.selectedRemote ++ "/"
      ++ s.currentBranch), .opTrackPush], some s)
  else if optHasSub env.pushRes.error "Everything up-to-date" then
    (base ++ [.outInfo "No local commits to push - already up to date"], some s)
  else
    (base ++ [.outError (jsOr (env.pushRes.error.getD "") "Failed to push local commits"),
      .outInfo "You may need to push manually: git push"], none)

/-- Completion of the pull workflow. -/
def pStDone (env : PullEnv) (s : PullState) : List Act × Option PullState :=
  ([.outSep, .outLine "", .outSuccess "All done! Pull and push completed successfully.",
    .outInfo ("Total time saved with AutoGit Pro: " ++ env.timeSaved), .outLine "",
    .outInfo "Terminal will close in 3 seconds...", .closeNow], some s)

/-- `runPullWorkflow`: the stages in source order. -/
def runPullWorkflow (env : PullEnv) : List Act × Option PullState :=
  andThen (andThen (andThen (andThen (andThen (andThen (andThen (andThen (andThen (andThen
    (andThen (pStCheck env pullInit) (pStRepo env)) (pStGate env)) (pStBranch env))
    (pStRemotes env)) (pStSelect env)) (pStFetch env)) (pStBranchInput env)) (pStConfirm env))
    (pStPull env)) (pStPushBack env)) (pStDone env)

/-- The observable action sequence of one pull-workflow run. -/
def pullTrace (env : PullEnv) : List Act := (runPullWorkflow env).1

/-! ## Trace observers -/

/-- Is the action a push invocation? -/
def isPushOp : Act → Bool
  | .opPush _ _ _ => true
  | _ => false

/-- Is the action a pull invocation? -/
def isPullOp : Act → Bool
  | .opPull _ _ _ _ => true
  | _ => false

/-- Is the action a pull invocation carrying `--allow-unrelated-histories`? -/
def isAllowPullOp : Act → Bool
  | .opPull _ _ _ a => a
  | _ => false

/-- Is the action a fetch invocation? -/
def isFetchOp : Act → Bool
  | .opFetch => true
  | _ => false

/-- Is the action a commit invocation? -/
def isCommitOp : Act → Bool
  | .opCommit _ => true
  | _ => false

/-- Is the action a branch switch (checkout or create-and-checkout)? -/
def isSwitchOp : Act → Bool
  | .opCreateBranch _ => true
  | .opCheckout _ => true
  | _ => false

/-- Number of push invocations in a trace. -/
def countPush (l : List Act) : Nat := l.countP isPushOp

/-- Number of pull invocations in a trace. -/
def countPull (l : List Act) : Nat := l.countP isPullOp

/-- Number of allow-unrelated-histories pull invocations in a trace. -/
def countAllowPull (l : List Act) : Nat := l.countP isAllowPullOp

/-- `true` when no branch switch occurs before the first commit in the
trace (scanning left to right, a commit seen first settles the question). -/
def noSwitchBeforeCommit : List Act → Bool
  | [] => true
  | a :: rest =>
      if isCommitOp a then true
      else if isSwitchOp a then false
      else noSwitchBeforeCommit rest

/-- Neither a commit nor a branch switch. -/
def neutralSC (a : Act) : Bool := !(isCommitOp a || isSwitchOp a)

/-- The last action of a trace. -/
def lastAct (l : List Act) : Option Act := l.getLast?

/-! ## Composition lemmas for stage chains -/

/-- An action that is none of commit, branch switch, push, pull, fetch. -/
def benign (a : Act) : Bool :=
  !(isCommitOp a || isSwitchOp a || isPushOp a || isPullOp a || isFetchOp a)

theorem countP_andThen {σ σ' : Type} (p : Act → Bool) (r : List Act × Option σ)
    (f : σ → List Act × Option σ') :
    ((andThen r f).1).countP p
      = r.1.countP p + (match r.2 with | none => 0 | some s => ((f s).1).countP p) := by
  obtain ⟨t, o⟩ := r
  cases o <;> simp [andThen, List.countP_append]

theorem all_andThen {σ σ' : Type} (p : Act → Bool) (r : List Act × Option σ)
    (f : σ → List Act × Option σ') (h1 : r.1.all p = true)
    (h2 : ∀ s, ((f s).1).all p = true) : ((andThen r f).1).all p = true := by
  obtain ⟨t, o⟩ := r
  cases o with
  | none => simpa [andThen] using h1
  | some s =>
      have h1' : t.all p = true := h1
      simp [andThen, List.all_append, h1', h2 s]

theorem benign_no_pull (a : Act) (h : benign a = true) : isAllowPullOp a = false := by
  cases a <;> simp_all [benign, isCommitOp, isSwitchOp, isPushOp, isPullOp, isFetchOp,
    isAllowPullOp]

theorem benign_neutralSC (a : Act) (h : benign a = true) : neutralSC a = true := by
  cases a <;> simp_all [benign, neutralSC, isCommitOp, isSwitchOp, isPushOp, isPullOp, isFetchOp]

theorem countP_eq_zero_of_all (p q : Act → Bool) (hp : ∀ a, q a = true → p a = false)
    (l : List Act) (h : l.all q = true) : l.countP p = 0 := by
  rw [List.countP_eq_zero]
  intro a ha
  simp [hp a ((List.all_eq_true.mp h) a ha)]

theorem benign_stCheckGit (env : CommitEnv) (s : WfState) :
    ((stCheckGit env s).1).all benign = true := by
  simp only [stCheckGit]
  repeat' split
  all_goals simp [benign, isCommitOp, isSwitchOp, isPushOp, isPullOp, isFetchOp]

theorem benign_stRepo (env : CommitEnv) (s : WfState) :
    ((stRepo env s).1).all benign = true := by
  simp only [stRepo]
  repeat' split
  all_goals simp [benign, isCommitOp, isSwitchOp, isPushOp, isPullOp, isFetchOp]

theorem benign_stBranchStatus (env : CommitEnv) (s : WfState) :
    ((stBranchStatus env s).1).all benign = true := by
  simp only [stBranchStatus]
  repeat' split
  all_goals simp [benign, isCommitOp, isSwitchOp, isPushOp, isPullOp, isFetchOp]

theorem benign_stBranchSelect (env : CommitEnv) (s : WfState) :
    ((stBranchSelect env s).1).all benign = true := by
  simp only [stBranchSelect]
  repeat' split
  all_goals simp [benign, isCommitOp, isSwitchOp, isPushOp, isPullOp, isFetchOp]

theorem benign_stMessage (env : CommitEnv) (s : WfState) :
    ((stMessage env s).1).all benign = true := by
  simp only [stMessage]
  repeat' split
  all_goals simp [benign, isCommitOp, isSwitchOp, isPushOp, isPullOp, isFetchOp,
    List.all_append]

theorem benign_stRemote (env : CommitEnv) (s : WfState) :
    ((stRemote env s).1).all benign = true := by
  simp only [stRemote]
  repeat' split
  all_goals simp [benign, isCommitOp, isSwitchOp, isPushOp, isPullOp, isFetchOp,
    List.all_append]

theorem benign_stConfirm (env : CommitEnv) (s : WfState) :
    ((stConfirm env s).1).all benign = true := by
  simp only [stConfirm]
  repeat' split
  all_goals simp [benign, isCommitOp, isSwitchOp, isPushOp, isPullOp, isFetchOp,
    List.all_append]

theorem benign_stStage (env : CommitEnv) (s : WfState) :
    ((stStage env s).1).all benign = true := by
  simp only [stStage]
  repeat' split
  all_goals simp [benign, isCommitOp, isSwitchOp, isPushOp, isPullOp, isFetchOp]

theorem benign_stDone (env : CommitEnv) (s : WfState) :
    ((stDone env s).1).all benign = true := by
  simp [stDone, benign, isCommitOp, isSwitchOp, isPushOp, isPullOp, isFetchOp]

theorem benign_wfPre (env : CommitEnv) : ((wfPre env).1).all benign = true := by
  unfold wfPre
  exact all_andThen _ _ _ (all_andThen _ _ _ (all_andThen _ _ _ (all_andThen _ _ _
    (all_andThen _ _ _ (all_andThen _ _ _ (all_andThen _ _ _
      (benign_stCheckGit env wfInit) (benign_stRepo env)) (benign_stBranchStatus env))
      (benign_stBranchSelect env)) (benign_stMessage env)) (benign_stRemote env))
      (benign_stConfirm env)) (benign_stStage env)

theorem andThen_fst {σ σ' : Type} (r : List Act × Option σ) (f : σ → List Act × Option σ') :
    ∃ rest, (andThen r f).1 = r.1 ++ rest := by
  obtain ⟨t, o⟩ := r
  cases o with
  | none => exact ⟨[], by simp [andThen]⟩
  | some s => exact ⟨(f s).1, by simp [andThen]⟩

theorem all_imp (p q : Act → Bool) (h : ∀ a, p a = true → q a = true) (l : List Act)
    (hl : l.all p = true) : l.all q = true := by
  simp only [List.all_eq_true] at *
  exact fun a ha => h a (hl a ha)

theorem neutralSC_parts (a : Act) (h : neutralSC a = true) :
    isCommitOp a = false ∧ isSwitchOp a = false := by
  unfold neutralSC at h
  simp only [Bool.not_eq_true', Bool.or_eq_false_iff] at h
  exact h

theorem noSwB_append_of_neutral (l1 l2 : List Act) (h : l1.all neutralSC = true) :
    noSwitchBeforeCommit (l1 ++ l2) = noSwitchBeforeCommit l2 := by
  induction l1 with
  | nil => rfl
  | cons a l ih =>
      simp only [List.all_cons, Bool.and_eq_true] at h
      obtain ⟨hc, hs⟩ := neutralSC_parts a h.1
      simp [noSwitchBeforeCommit, hc, hs, ih h.2]

theorem noSwB_of_neutral (l : List Act) (h : l.all neutralSC = true) :
    noSwitchBeforeCommit l = true := by
  have := noSwB_append_of_neutral l [] h
  simpa using this

theorem stCommit_head (env : CommitEnv) (s : WfState) :
    ∃ tail, (stCommit env s).1
      = Act.outProgress "Creating commit" :: Act.opCommit s.commitMessage :: tail := by
  unfold stCommit
  split <;> exact ⟨_, rfl⟩

theorem noSwB_wfTail (env : CommitEnv) (s : WfState) :
    noSwitchBeforeCommit (wfTail env s).1 = true := by
  unfold wfTail
  obtain ⟨r3, h3⟩ := andThen_fst
    (andThen (andThen (stCommit env s) (stSwitch env)) (stPush env)) (stDone env)
  rw [h3]
  obtain ⟨r2, h2⟩ := andThen_fst (andThen (stCommit env s) (stSwitch env)) (stPush env)
  rw [h2]
  obtain ⟨r1, h1⟩ := andThen_fst (stCommit env s) (stSwitch env)
  rw [h1]
  obtain ⟨tail, htail⟩ := stCommit_head env s
  rw [htail]
  simp [noSwitchBeforeCommit, isCommitOp, isSwitchOp]

theorem benign_no_push (a : Act) (h : benign a = true) : isPushOp a = false := by
  cases a <;> simp_all [benign, isCommitOp, isSwitchOp, isPushOp, isPullOp, isFetchOp]

/-! ## Claim C3 — deferred branch switch -/

/-- C3: in every commit-workflow run, no checkout or branch creation ever
occurs before the commit operation (the branch decision is recorded at
selection time, the switch itself is deferred); when the deferred switch
fails, the switch stage emits the failure and the notice that the commit
exists on the original branch and stops; and in a run that reaches the
failing deferred switch, the whole trace ends with that notice, no push is
ever attempted, and the recorded commit is left untouched. -/
theorem deferred_branch_switch :
    (∀ env : CommitEnv, noSwitchBeforeCommit (commitTrace env) = true) ∧
    (∀ (env : CommitEnv) (s : WfState), s.needsBranchSwitch = true →
      ((s.createNewBranch = true → env.createBranchResult.success = false →
        stSwitch env s = ([.outProgress ("Creating new branch: " ++ s.targetBranch),
          .opCreateBranch s.targetBranch,
          .outError (jsOr (env.createBranchResult.error.getD "") "Failed to create branch"),
          .outInfo "Commit was created on current branch. You can switch manually."], none)) ∧
       (s.createNewBranch = false → env.checkoutResult.success = false →
        stSwitch env s = ([.outProgress ("Switching to branch: " ++ s.targetBranch),
          .opCheckout s.targetBranch,
          .outError (jsOr (env.checkoutResult.error.getD "") "Failed to switch branch"),
          .outInfo "Commit was created on current branch. You can switch manually."], none)))) ∧
    (∀ (env : CommitEnv) (s : WfState), (wfPre env).2 = some s →
      env.commitResult.success = true → s.needsBranchSwitch = true →
      ((s.createNewBranch = true ∧ env.createBranchResult.success = false) ∨
        (s.createNewBranch = false ∧ env.checkoutResult.success = false)) →
      lastAct (commitTrace env)
          = some (.outInfo "Commit was created on current branch. You can switch manually.")
        ∧ countPush (commitTrace env) = 0) := by
  refine ⟨fun env => ?_, fun env s hns => ?_, fun env s hpre hcommit hns hcase => ?_⟩
  · have hb := benign_wfPre env
    rcases h : wfPre env with ⟨t, o⟩
    rw [h] at hb
    have hn : t.all neutralSC = true := all_imp _ _ benign_neutralSC t (by simpa using hb)
    unfold commitTrace runWorkflow
    rw [h]
    cases o with
    | none => simpa [andThen] using noSwB_of_neutral t hn
    | some s =>
        have : (andThen ((t, some s) : List Act × Option WfState) (wfTail env)).1
            = t ++ (wfTail env s).1 := by simp [andThen]
        rw [this, noSwB_append_of_neutral _ _ hn]
        exact noSwB_wfTail env s
  · constructor <;> intro hcn hfail <;> simp [stSwitch, hns, hcn, hfail]
  · have hb := benign_wfPre env
    rcases h : wfPre env with ⟨t, o⟩
    rw [h] at hb hpre
    simp only at hpre
    subst hpre
    have hpz : t.countP isPushOp = 0 :=
      countP_eq_zero_of_all _ _ benign_no_push t (by simpa using hb)
    have hsw : ∃ e b, isPushOp b = false ∧ stSwitch env s = ([.outProgress e, b,
        .outError (jsOr ((if s.createNewBranch then env.createBranchResult
          else env.checkoutResult).error.getD "")
          (if s.createNewBranch then "Failed to create branch" else "Failed to switch branch")),
        .outInfo "Commit was created on current branch. You can switch manually."], none) := by
      rcases hcase with ⟨hcn, hfail⟩ | ⟨hcn, hfail⟩
      · exact ⟨"Creating new branch: " ++ s.targetBranch, .opCreateBranch s.targetBranch,
          rfl, by simp [stSwitch, hns, hcn, hfail]⟩
      · exact ⟨"Switching to branch: " ++ s.targetBranch, .opCheckout s.targetBranch,
          rfl, by simp [stSwitch, hns, hcn, hfail]⟩
    obtain ⟨e, b, hbPush, hswEq⟩ := hsw
    unfold commitTrace runWorkflow wfTail
    rw [h]
    simp only [andThen, stCommit, hcommit, if_true, hswEq]
    constructor
    · rw [lastAct]
      rw [List.getLast?_append_of_ne_nil _ (by simp)]
      rw [List.getLast?_append_of_ne_nil _ (by simp)]
      rfl
    · simp [countPush, List.countP_append, List.countP_cons, isPushOp, hpz]
      exact hbPush

/-- C3 (witness): a run targeting the new branch `dev` whose deferred
creation fails — the commit stays, the run ends with the notice, no push. -/
theorem deferred_branch_switch_witness :
    (wfPre { branchLine := "dev", createBranchResult := { success := false } }).2
        = some { repoPath := "/repo"
                 currentBranch := "main"
                 targetBranch := "dev"
                 needsBranchSwitch := true
                 createNewBranch := true
                 commitMessage := "Update files"
                 pushBranch := "" }
      ∧ lastAct (commitTrace { branchLine := "dev", createBranchResult := { success := false } })
          = some (.outInfo "Commit was created on current branch. You can switch manually.")
      ∧ countPush
          (commitTrace { branchLine := "dev", createBranchResult := { success := false } })
          = 0 := by
  refine ⟨by decide, ?_, ?_⟩
  · exact (deferred_branch_switch.2.2
      { branchLine := "dev", createBranchResult := { success := false } }
      { repoPath := "/repo"
        currentBranch := "main"
        targetBranch := "dev"
        needsBranchSwitch := true
        createNewBranch := true
        commitMessage := "Update files"
        pushBranch := "" }
      (by decide) (by decide) (by decide) (Or.inl ⟨by decide, by decide⟩)).1
  · exact (deferred_branch_switch.2.2
      { branchLine := "dev", createBranchResult := { success := false } }
      { repoPath := "/repo"
        currentBranch := "main"
        targetBranch := "dev"
        needsBranchSwitch := true
        createNewBranch := true
        commitMessage := "Update files"
        pushBranch := "" }
      (by decide) (by decide) (by decide) (Or.inl ⟨by decide, by decide⟩)).2

/-! ## Claim C2 — single push-recovery cycle -/

theorem countP_push_aiBlock (expl : String) (sug : List String) (hdr : String) (tb : Bool) :
    (aiBlock expl sug hdr tb).countP isPushOp = 0 := by
  unfold aiBlock
  split_ifs <;> simp [List.countP_append, List.countP_cons, isPushOp]

theorem countP_pull_aiBlock (expl : String) (sug : List String) (hdr : String) (tb : Bool) :
    (aiBlock expl sug hdr tb).countP isPullOp = 0 := by
  unfold aiBlock
  split_ifs <;> simp [List.countP_append, List.countP_cons, isPullOp]

/-- C2: in the commit workflow's push step, at most two pushes and two pulls
ever run; a first push that fails without the `rejected` signature triggers
no pull and no retry (a single push at most); and on a `rejected` failure,
if the recovery pull succeeds exactly one retry push runs (two pushes in
total) and a failing retry ends the step with the push error reported as the
final action, while a failing recovery pull means the retry push never runs. -/
theorem pushStep_single_recovery (env : CommitEnv) (s : WfState) :
    countPush (stPush env s).1 ≤ 2 ∧
    countPull (stPush env s).1 ≤ 2 ∧
    (optHasSub env.push1.error "rejected" = false →
      countPull (stPush env s).1 = 0 ∧ countPush (stPush env s).1 ≤ 1) ∧
    (env.pushAfterCommit = true → env.hasRemote2 = true → env.push1.success = false →
      optHasSub env.push1.error "rejected" = true →
      (((recoveryPullResult env).success = true →
          countPush (stPush env s).1 = 2 ∧ 1 ≤ countPull (stPush env s).1 ∧
          (env.push2.success = false →
            lastAct (stPush env s).1
              = some (.outError (jsOr (env.push2.error.getD "") "Failed to push")))) ∧
        ((recoveryPullResult env).success = false → countPush (stPush env s).1 = 1))) := by
  simp only [stPush]
  split_ifs <;>
    simp_all [countPush, countPull, lastAct, List.countP_append, List.countP_cons,
      isPushOp, isPullOp, List.cons_append, List.getLast?_cons_cons, List.append_assoc,
      countP_push_aiBlock, countP_pull_aiBlock]

/-- C2 (witness): a rejected push, a successful recovery pull, and a failing
retry — two pushes in total and the retry's error is the final report. -/
def envC2 : CommitEnv :=
  { push1 := { success := false, error := some "! [rejected]" }
    push2 := { success := false, error := some "retry failed" } }

theorem pushStep_single_recovery_witness :
    countPush (stPush envC2 wfInit).1 = 2
      ∧ lastAct (stPush envC2 wfInit).1 = some (.outError "retry failed") := by
  have h := ((pushStep_single_recovery envC2 wfInit).2.2.2
    (by decide) (by decide) (by decide) (by decide)).1 (by decide)
  refine ⟨h.1, ?_⟩
  rw [h.2.2 (by decide)]
  decide

/-! ## Claim C4 — the allow-unrelated-histories retry -/

theorem countP_allow_aiBlock (expl : String) (sug : List String) (hdr : String) (tb : Bool) :
    (aiBlock expl sug hdr tb).countP isAllowPullOp = 0 := by
  unfold aiBlock
  split_ifs <;> simp [List.countP_append, List.countP_cons, isAllowPullOp]

theorem countP_andThen_le {σ σ' : Type} (p : Act → Bool) (r : List Act × Option σ)
    (f : σ → List Act × Option σ') (a b : Nat) (h1 : r.1.countP p ≤ a)
    (h2 : ∀ s, ((f s).1).countP p ≤ b) : ((andThen r f).1).countP p ≤ a + b := by
  obtain ⟨t, o⟩ := r
  cases o with
  | none =>
      simp only [andThen] at *
      omega
  | some s =>
      have := h2 s
      simp only [andThen, List.countP_append] at *
      omega

theorem countAllow_stCommit (env : CommitEnv) (s : WfState) :
    (stCommit env s).1.countP isAllowPullOp = 0 := by
  unfold stCommit
  split <;> simp [List.countP_cons, isAllowPullOp]

theorem countAllow_stSwitch (env : CommitEnv) (s : WfState) :
    (stSwitch env s).1.countP isAllowPullOp = 0 := by
  simp only [stSwitch]
  split_ifs <;> simp [List.countP_cons, isAllowPullOp]

theorem countAllow_stPush_le (env : CommitEnv) (s : WfState) :
    (stPush env s).1.countP isAllowPullOp ≤ 1 := by
  simp only [stPush]
  split_ifs <;>
    simp_all [List.countP_append, List.countP_cons, isAllowPullOp, countP_allow_aiBlock]

theorem countAllow_wfTail_le (env : CommitEnv) (s : WfState) :
    (wfTail env s).1.countP isAllowPullOp ≤ 1 := by
  unfold wfTail
  have h4 : ∀ u, ((stDone env u).1).countP isAllowPullOp ≤ 0 := fun u =>
    le_of_eq (countP_eq_zero_of_all _ _ benign_no_pull _ (benign_stDone env u))
  have step1 := countP_andThen_le isAllowPullOp (stCommit env s) (stSwitch env) 0 0
    (le_of_eq (countAllow_stCommit env s)) (fun u => le_of_eq (countAllow_stSwitch env u))
  have step2 := countP_andThen_le isAllowPullOp _ (stPush env) 0 1 step1
    (countAllow_stPush_le env)
  have step3 := countP_andThen_le isAllowPullOp _ (stDone env) 1 0 step2 h4
  simpa using step3

theorem countAllow_pStCheck (env : PullEnv) (s : PullState) :
    (pStCheck env s).1.countP isAllowPullOp = 0 := by
  simp only [pStCheck]
  split_ifs <;> simp [List.countP_cons, isAllowPullOp]

theorem countAllow_pStRepo (env : PullEnv) (s : PullState) :
    (pStRepo env s).1.countP isAllowPullOp = 0 := by
  simp only [pStRepo]
  repeat' split
  all_goals simp [List.countP_cons, isAllowPullOp]

theorem countAllow_pStGate (env : PullEnv) (s : PullState) :
    (pStGate env s).1.countP isAllowPullOp = 0 := by
  simp only [pStGate]
  split_ifs <;> simp [List.countP_append, List.countP_cons, isAllowPullOp]

theorem countAllow_pStBranch (env : PullEnv) (s : PullState) :
    (pStBranch env s).1.countP isAllowPullOp = 0 := by
  simp [pStBranch, List.countP_cons, isAllowPullOp]

theorem countAllow_pStRemotes (env : PullEnv) (s : PullState) :
    (pStRemotes env s).1.countP isAllowPullOp = 0 := by
  simp only [pStRemotes]
  split_ifs <;> simp [List.countP_append, List.countP_cons, isAllowPullOp]

theorem countAllow_pStSelect (env : PullEnv) (s : PullState) :
    (pStSelect env s).1.countP isAllowPullOp = 0 := by
  simp only [pStSelect]
  repeat' split
  all_goals simp [List.countP_cons, isAllowPullOp]

theorem countAllow_pStFetch (env : PullEnv) (s : PullState) :
    (pStFetch env s).1.countP isAllowPullOp = 0 := by
  simp only [pStFetch]
  split_ifs <;> simp [List.countP_append, List.countP_cons, isAllowPullOp]

theorem countAllow_pStBranchInput (env : PullEnv) (s : PullState) :
    (pStBranchInput env s).1.countP isAllowPullOp = 0 := by
  simp [pStBranchInput, List.countP_cons, isAllowPullOp]

theorem countAllow_pStConfirm (env : PullEnv) (s : PullState) :
    (pStConfirm env s).1.countP isAllowPullOp = 0 := by
  simp only [pStConfirm]
  split_ifs <;> simp [List.countP_append, List.countP_cons, isAllowPullOp]

theorem countAllow_pStPull_le (env : PullEnv) (s : PullState) :
    (pStPull env s).1.countP isAllowPullOp ≤ 1 := by
  simp only [pStPull]
  repeat' split
  all_goals
    simp_all [List.countP_append, List.countP_cons, isAllowPullOp, countP_allow_aiBlock]

theorem countAllow_pStPushBack (env : PullEnv) (s : PullState) :
    (pStPushBack env s).1.countP isAllowPullOp = 0 := by
  simp only [pStPushBack]
  split_ifs <;> simp [List.countP_append, List.countP_cons, isAllowPullOp]

theorem countAllow_pStDone (env : PullEnv) (s : PullState) :
    (pStDone env s).1.countP isAllowPullOp = 0 := by
  simp [pStDone, List.countP_cons, isAllowPullOp]

/-- C4: in each workflow run, at most one allow-unrelated-histories pull
ever runs; the commit workflow's push step issues one exactly when the
recovery path is active (rejected push) and its plain rebase-pull failed
with the unrelated-histories signature; the pull workflow's pull step issues
one exactly when the plain pull failed with that signature. Any other
failure signature yields no such retry. -/
theorem unrelated_histories_retry :
    (∀ env : CommitEnv, countAllowPull (commitTrace env) ≤ 1) ∧
    (∀ env : PullEnv, countAllowPull (pullTrace env) ≤ 1) ∧
    (∀ (env : CommitEnv) (s : WfState),
      0 < countAllowPull (stPush env s).1 ↔
        (env.pushAfterCommit = true ∧ env.hasRemote2 = true ∧ env.push1.success = false ∧
          optHasSub env.push1.error "rejected" = true ∧ env.pullPlain.success = false ∧
          optHasSub env.pullPlain.error "unrelated histories" = true)) ∧
    (∀ (env : PullEnv) (s : PullState),
      0 < countAllowPull (pStPull env s).1 ↔
        (env.pullPlain.success = false ∧
          optHasSub env.pullPlain.error "unrelated histories" = true)) := by
  refine ⟨fun env => ?_, fun env => ?_, fun env s => ?_, fun env s => ?_⟩
  · have hpre : (wfPre env).1.countP isAllowPullOp ≤ 0 :=
      le_of_eq (countP_eq_zero_of_all _ _ benign_no_pull _ (benign_wfPre env))
    have h := countP_andThen_le isAllowPullOp (wfPre env) (wfTail env) 0 1 hpre
      (countAllow_wfTail_le env)
    simpa [commitTrace, runWorkflow, countAllowPull] using h
  · have h01 := countP_andThen_le isAllowPullOp (pStCheck env pullInit) (pStRepo env) 0 0
      (le_of_eq (countAllow_pStCheck env pullInit)) (fun u => le_of_eq (countAllow_pStRepo env u))
    have h02 := countP_andThen_le isAllowPullOp _ (pStGate env) 0 0 h01
      (fun u => le_of_eq (countAllow_pStGate env u))
    have h03 := countP_andThen_le isAllowPullOp _ (pStBranch env) 0 0 h02
      (fun u => le_of_eq (countAllow_pStBranch env u))
    have h04 := countP_andThen_le isAllowPullOp _ (pStRemotes env) 0 0 h03
      (fun u => le_of_eq (countAllow_pStRemotes env u))
    have h05 := countP_andThen_le isAllowPullOp _ (pStSelect env) 0 0 h04
      (fun u => le_of_eq (countAllow_pStSelect env u))
    have h06 := countP_andThen_le isAllowPullOp _ (pStFetch env) 0 0 h05
      (fun u => le_of_eq (countAllow_pStFetch env u))
    have h07 := countP_andThen_le isAllowPullOp _ (pStBranchInput env) 0 0 h06
      (fun u => le_of_eq (countAllow_pStBranchInput env u))
    have h08 := countP_andThen_le isAllowPullOp _ (pStConfirm env) 0 0 h07
      (fun u => le_of_eq (countAllow_pStConfirm env u))
    have h09 := countP_andThen_le isAllowPullOp _ (pStPull env) 0 1 h08
      (countAllow_pStPull_le env)
    have h10 := countP_andThen_le isAllowPullOp _ (pStPushBack env) 1 0 h09
      (fun u => le_of_eq (countAllow_pStPushBack env u))
    have h11 := countP_andThen_le isAllowPullOp _ (pStDone env) 1 0 h10
      (fun u => le_of_eq (countAllow_pStDone env u))
    simpa [pullTrace, runPullWorkflow, countAllowPull] using h11
  · simp only [stPush]
    split_ifs <;>
      simp_all [countAllowPull, List.countP_append, List.countP_cons, isAllowPullOp,
        countP_allow_aiBlock]
  · simp only [pStPull]
    repeat' split
    all_goals
      simp_all [countAllowPull, List.countP_append, List.countP_cons, isAllowPullOp,
        countP_allow_aiBlock]

/-- C4 (witness): an unrelated-histories failure of the plain pull makes the
allow-flag retry happen, and a whole run never carries more than one. -/
def envC4 : PullEnv :=
  { pullPlain :=
      { success := false, error := some "fatal: refusing to merge unrelated histories" } }

theorem unrelated_histories_retry_witness :
    countAllowPull (pullTrace envC4) ≤ 1
      ∧ 0 < countAllowPull (pStPull envC4 pullInit).1 := by
  constructor
  · exact unrelated_histories_retry.2.1 _
  · exact (unrelated_histories_retry.2.2.2 _ pullInit).mpr ⟨by decide, by decide⟩

/-! ## Claim C5 — the clean-working-tree gate -/

/-- C5: whenever the status query succeeds and reports uncommitted changes,
the pull workflow performs no fetch and no pull in that run, and — when it
actually reached the gate (tool present, repository found) — the run ends at
the gate with the dirty-tree report. -/
theorem pull_clean_tree_gate (env : PullEnv) (h1 : env.statusOk = true)
    (h2 : env.status.hasChanges = true) :
    (pullTrace env).countP isFetchOp = 0 ∧ (pullTrace env).countP isPullOp = 0 ∧
    (env.gitInstalled = true → ∀ p, env.repoDetected = some p →
      lastAct (pullTrace env)
        = some (.outInfo ("Untracked: " ++ toString env.status.untracked.length))) := by
  unfold pullTrace runPullWorkflow
  cases hg : env.gitInstalled with
  | false =>
      simp [pStCheck, hg, andThen, List.countP_cons, isFetchOp, isPullOp]
  | true =>
      cases hr : env.repoDetected with
      | none =>
          simp [pStCheck, pStRepo, hg, hr, andThen, List.countP_cons, List.countP_append,
            isFetchOp, isPullOp]
      | some p =>
          simp [pStCheck, pStRepo, pStGate, hg, hr, h1, h2, andThen, List.countP_cons,
            List.countP_append, isFetchOp, isPullOp, lastAct, List.getLast?]

/-- C5 (witness): one modified file blocks the pull before any fetch. -/
def envC5 : PullEnv :=
  { status := { staged := [], unstaged := ["a"], untracked := [], hasChanges := true } }

theorem pull_clean_tree_gate_witness :
    (pullTrace envC5).countP isFetchOp = 0 ∧ (pullTrace envC5).countP isPullOp = 0
      ∧ lastAct (pullTrace envC5) = some (.outInfo ("Untracked: " ++ toString (0 : Nat))) := by
  have h := pull_clean_tree_gate envC5 (by decide) (by decide)
  exact ⟨h.1, h.2.1, h.2.2 (by decide) "/repo" (by decide)⟩

/-! ## Claim C6 — a failed status query does not block the pull -/

/-- C6: a run whose status query fails behaves exactly — action for action —
like a run whose status query succeeds reporting a clean tree: the gate does
not halt it, and remote selection, fetch and pull proceed as if the tree
were clean. Only a successful status result with changes blocks the pull. -/
theorem pull_status_failure_proceeds (env : PullEnv) :
    pullTrace { env with statusOk := false }
      = pullTrace { env with
          statusOk := true
          status := { staged := [], unstaged := [], untracked := [], hasChanges := false } } := by
  rfl

/-! ## Claim C1 — argument delivery by the process runner -/

/-- C1 (counterexample): the commit operation does not pass every message
verbatim — the exec-based `commit` replaces newlines by spaces before the
shell ever sees the message, so the two-line message `a\nb` reaches `git`
as `a b`. -/
theorem execCommit_not_verbatim_cex :
    execDeliveredMessage "a\nb" = "a b" ∧ execDeliveredMessage "a\nb" ≠ "a\nb" := by
  decide

/-- C1 (amended): in the spawn-based runner the argv is handed over with no
shell in between, and `commit` passes `message.trim()`, so every message that
is already trimmed — shell metacharacters included — reaches the tool
unaltered as the `-m` argument. -/
theorem spawnCommit_verbatim (m : String) (h : strTrim m = m) (hne : m ≠ "") :
    commitSpawnArgs m = some ["commit", "-m", m] := by
  unfold commitSpawnArgs
  rw [h]
  simp [hne]

/-- C1 (witness): the spec's own example `a"b`c$d` round-trips through the
spawn-based commit. -/
theorem spawnCommit_verbatim_witness :
    strTrim "a\"b`c$d" = "a\"b`c$d" ∧ ("a\"b`c$d" : String) ≠ ""
      ∧ commitSpawnArgs "a\"b`c$d" = some ["commit", "-m", "a\"b`c$d"] :=
  ⟨by decide, by decide, spawnCommit_verbatim _ (by decide) (by decide)⟩

/-! ## Claim C7 — result mapping of the process runner -/

/-- C7: for every process outcome, a zero exit code yields success with the
trimmed stdout as data; a non-zero exit code yields failure with the trimmed
stderr, or the generic `Git command failed with code N` message when the
trimmed stderr is empty; a launch failure yields failure carrying the
underlying system error text. (The runner resolves in every case — no
expected failure mode is raised as an exception.) -/
theorem processRunner_result_spec :
    (∀ out err : String, executeGitWithArgs (.exited 0 out err)
        = { success := true, data := some (strTrim out), error := none }) ∧
    (∀ (code : Int) (out err : String), code ≠ 0 → executeGitWithArgs (.exited code out err)
        = { success := false, data := none
            error := some (if strTrim err = "" then "Git command failed with code "
              ++ toString code else strTrim err) }) ∧
    (∀ msg : String, executeGitWithArgs (.launchFailure msg)
        = { success := false, data := none
            error := some (if msg = "" then "Failed to execute git command" else msg) }) := by
  refine ⟨fun out err => by simp [executeGitWithArgs], fun code out err h => ?_, fun msg => ?_⟩
  · simp [executeGitWithArgs, h, jsOr]
  · simp [executeGitWithArgs, jsOr]

/-- C7 (witness): the non-zero-exit case at exit code 1 with padded stderr. -/
theorem processRunner_result_witness :
    (1 : Int) ≠ 0 ∧ executeGitWithArgs (.exited 1 "out" " err ")
      = { success := false, data := none
          error := some (if strTrim " err " = "" then "Git command failed with code "
            ++ toString (1 : Int) else strTrim " err ") } :=
  ⟨by decide, processRunner_result_spec.2.1 1 "out" " err " (by decide)⟩

/-! ## Claim C8 — `hasChanges` derivation -/

/-- C8: for every raw porcelain output, the derived `hasChanges` flag is true
exactly when the three parsed lists are not all empty, i.e. when the sum of
their lengths is positive. -/
theorem getStatus_hasChanges_iff (out : String) :
    (getStatusData out).hasChanges = true ↔
      0 < (getStatusData out).staged.length + (getStatusData out).unstaged.length
        + (getStatusData out).untracked.length := by
  unfold getStatusData
  rcases parseStatusLines ((strSplitChar out (Char.ofNat 10)).filter (fun l => strTrim l != ""))
    with ⟨s, u, t⟩
  simp only [Bool.or_eq_true, decide_eq_true_eq]
  omega

/-! ## Claim C9 — confirm semantics -/

/-- C9 (counterexample): the submitted line ` y ` is neither empty nor the
hint string `y/N`, and it does not case-insensitively equal `y` or `yes`
(its lowercase form still carries the spaces), yet `confirm` with a false
default returns true — the comparison happens on the *trimmed* line. -/
theorem confirm_claim_cex :
    confirmResolve false " y " = true ∧ strLower " y " ≠ "y" ∧ strLower " y " ≠ "yes"
      ∧ (" y " : String) ≠ "" ∧ (" y " : String) ≠ "y/N" := by
  decide

/-- C9 (amended): `confirm(label, defaultYes)` first trims the submitted
line; an empty trimmed line or a trimmed line equal to the literal hint
(`Y/n` when the default is yes, `y/N` otherwise) yields the default, and any
other line yields true exactly when its trimmed, lowercased form is `y` or
`yes`. -/
theorem confirm_resolution (defaultYes : Bool) (line : String) :
    (strTrim line = "" → confirmResolve defaultYes line = defaultYes) ∧
    (strTrim line = (if defaultYes then "Y/n" else "y/N") →
      confirmResolve defaultYes line = defaultYes) ∧
    (strTrim line ≠ "" → strTrim line ≠ (if defaultYes then "Y/n" else "y/N") →
      (confirmResolve defaultYes line = true ↔
        (strLower (strTrim line) = "y" ∨ strLower (strTrim line) = "yes"))) := by
  refine ⟨fun h => ?_, fun h => ?_, fun h1 h2 => ?_⟩
  · cases defaultYes <;> simp [confirmResolve, inputResolve, jsOr, h]
  · by_cases h0 : strTrim line = ""
    · cases defaultYes <;> simp [confirmResolve, inputResolve, jsOr, h0]
    · cases defaultYes <;> simp [confirmResolve, inputResolve, jsOr, h0, h]
  · cases defaultYes with
    | false =>
        replace h2 : strTrim line ≠ "y/N" := by simpa using h2
        simp [confirmResolve, inputResolve, jsOr, h1, h2, Bool.or_eq_true, beq_iff_eq]
    | true =>
        replace h2 : strTrim line ≠ "Y/n" := by simpa using h2
        simp [confirmResolve, inputResolve, jsOr, h1, h2, Bool.or_eq_true, beq_iff_eq]

/-- C9 (witness): the claim's own example — input `n` against a true default
returns false. -/
theorem confirm_resolution_witness :
    strTrim "n" ≠ "" ∧ strTrim "n" ≠ (if (true : Bool) then "Y/n" else "y/N")
      ∧ confirmResolve true "n" = false := by
  refine ⟨by decide, by decide, ?_⟩
  have h := (confirm_resolution true "n").2.2 (by decide) (by decide)
  cases hb : confirmResolve true "n"
  · rfl
  · exact absurd (h.mp hb) (by decide)

/-! ## Claim C10 — pending-resolver invariant of the session -/

/-- C10: a prompt request sets the pending resolver; the Enter handler, when
a resolver is pending, clears it and resets the buffer while delivering the
buffered line (one resolution); an Enter with no pending resolver changes
nothing and resolves nothing; and along any event sequence containing no
prompt request the resolver stays null — it is non-null only between a
prompt request and the matching Enter, and being a single optional slot it
holds at most one outstanding prompt. -/
theorem terminal_resolver_invariant :
    (∀ s : TermState, (termStep s .promptReq).pending = true) ∧
    (∀ s : TermState, s.pending = true → termStep s .keyEnter
      = { s with
          pending := false
          currentInput := ""
          resolvedValues := s.resolvedValues ++ [s.currentInput] }) ∧
    (∀ s : TermState, s.pending = false → termStep s .keyEnter = s) ∧
    (∀ (s : TermState) (evs : List TermEvent), s.pending = false →
      (∀ e ∈ evs, e ≠ TermEvent.promptReq) → (termRun s evs).pending = false) := by
  refine ⟨fun s => rfl, fun s h => by simp [termStep, h], fun s h => by simp [termStep, h],
    fun s evs => ?_⟩
  induction evs generalizing s with
  | nil => intro h _; simpa [termRun] using h
  | cons e rest ih =>
      intro h hall
      have hstep : (termStep s e).pending = false := by
        cases e with
        | promptReq => exact absurd rfl (hall _ (by simp))
        | keyEnter => simp [termStep, h]
        | keyBackspace => by_cases hb : s.currentInput.isEmpty <;> simp [termStep, hb, h]
        | keyCtrlC => simp [termStep, h]
        | keyChar c => by_cases hc : Char.ofNat 32 ≤ c <;> simp [termStep, hc, h]
      have : termRun s (e :: rest) = termRun (termStep s e) rest := rfl
      rw [this]
      exact ih _ hstep (fun x hx => hall x (by simp [hx]))

/-- C10 (witness): a pending prompt with buffer `ab` is resolved by Enter
(buffer reset, resolver cleared), and a promptless keystroke sequence keeps
the resolver null. -/
theorem terminal_resolver_witness :
    termStep { currentInput := "ab", pending := true, resolvedValues := [], running := true }
        TermEvent.keyEnter
      = { currentInput := "", pending := false, resolvedValues := ["ab"], running := true }
    ∧ (termRun termInit [.keyChar (Char.ofNat 97), .keyEnter]).pending = false := by
  constructor
  · exact terminal_resolver_invariant.2.1 _ rfl
  · exact terminal_resolver_invariant.2.2.2 termInit _ rfl (by decide)

end AutoGit
